import Mathlib

/-!
Verification of the channel-routing engine of TopoFlow
(`topoflow/components/channels_base.py`).

The per-cell hydraulic update cascade is embedded shallowly: every grid is a
function `Fin n → ℝ` (the raster flattened to `n` cells), float64 arithmetic is
modelled by exact real arithmetic, the D8 flow network is a
`parent : Fin n → Option (Fin n)` map (`none` marks the sink/edge "noflow"
cells), and each `update_*` method of the channel component becomes a state
transformer.  The stability guard, which inspects IEEE special values, gets its
own small model of float classification over an inductive value type.

Layout: computable models (stability guard, flood partition) first, then the
real-valued models of the update cascade, then one theorem per verified
property with its witnesses and counterexamples.
-/

namespace Topoflow

/-! ### Stability guard model (`check_flow_depth`, `check_flow_velocity`)

The guard classifies float64 entries as negative / NaN / infinite.  Those
classes cannot be seen in an exact real model, so grids scanned by the guard
are lists of `FVal`: either a finite rational value or one of the IEEE special
values.  Comparison of IEEE values: `NaN < 0` is false, `-inf < 0` is true. -/

inductive FVal where
  | fin (x : ℚ)
  | nan
  | posInf
  | negInf
deriving DecidableEq

/-- IEEE test `v < 0.0` as used by `np.where(d < 0.0)` / `(u < 0.0)`. -/
def FVal.isNeg : FVal → Bool
  | .fin x => decide (x < 0)
  | .nan => false
  | .posInf => false
  | .negInf => true

/-- `np.isnan`. -/
def FVal.isNan : FVal → Bool
  | .nan => true
  | _ => false

/-- `np.isinf` (true for both infinities). -/
def FVal.isInf : FVal → Bool
  | .posInf => true
  | .negInf => true
  | _ => false

/-- `check_flow_depth`: counts negative, NaN and infinite depths, but takes
the early `return OK` when `(nneg == 0) and (ninf == 0)` — the NaN count is
computed and reported yet does not trigger the abort ("Option to allow NaN
but not Inf" in the source).  `true` means the `RuntimeError` is raised. -/
def check_flow_depth_raises (d : List FVal) : Bool :=
  !(d.countP FVal.isNeg == 0 && d.countP FVal.isInf == 0)

/-- `check_flow_velocity` with its default keyword flags
`CNEG=True, CNAN=True, CINF=True`: aborts when any negative, NaN or infinite
velocity is present.  `true` means the `RuntimeError` is raised. -/
def check_flow_velocity_raises (u : List FVal) : Bool :=
  !(u.countP FVal.isNeg == 0 && u.countP FVal.isNan == 0 &&
    u.countP FVal.isInf == 0)

/-- The stability-check block of `update()` when `CHECK_STABILITY` holds:
`check_flow_depth()` runs first and `check_flow_velocity()` second; a raise in
either aborts `update()`. -/
def stability_check_raises (d u : List FVal) : Bool :=
  check_flow_depth_raises d || check_flow_velocity_raises u

/-- OpenMI-style component status used by `update()`. -/
inductive CompStatus where
  | initialized
  | updated
  | failed
deriving DecidableEq

/-- Tail of `update()`: when a check raises, the `RuntimeError` propagates out
of `update()` before either status assignment is reached, so the status is
left as it was; otherwise `self.status = 'updated'`.  The
`self.status = 'failed'` branch is guarded by `OK == False`, but the check
methods raise instead of returning `False`, so that branch is not reachable
through a failed stability check. -/
def status_after_stability_check (d u : List FVal) (s : CompStatus) : CompStatus :=
  if stability_check_raises d u then s else CompStatus.updated

/-! ### Flood partition (`update_channel_volume`, `update_flood_volume`,
`update_flood_depth`), per cell, exact arithmetic over ℚ. -/

/-- `update_channel_volume`: `np.minimum(self.vol, self.vol_bankfull, self.vol_chan)`. -/
def update_channel_volume_cell (vol vol_bankfull : ℚ) : ℚ :=
  min vol vol_bankfull

/-- `update_flood_volume`: `dvol = vol - vol_bankfull; np.maximum(dvol, 0.0, self.vol_flood)`. -/
def update_flood_volume_cell (vol vol_bankfull : ℚ) : ℚ :=
  max (vol - vol_bankfull) 0

/-- Floodplain-to-channel width multiplier set in `initialize_computed_vars`
when the flood option is on: `self.width_ratio = 5.0`. -/
def width_ratio_default : ℚ := 5

/-- `update_flood_depth`: `d_flood = vol_flood / (n * width * ds)` with
`n = self.width_ratio`, then `np.maximum(d_flood, 0.0, self.d_flood)`. -/
def update_flood_depth_cell (vol_flood wr width ds : ℚ) : ℚ :=
  max (vol_flood / (wr * width * ds)) 0

end Topoflow

noncomputable section
open Classical Real

namespace Topoflow

/-! ### Real-valued per-cell formulas of the channel component -/

/-- Gravitational constant `self.g = np.float64(9.81)` from `set_constants`. -/
def g_const : ℝ := 981 / 100

/-- Von Kármán constant `self.kappa = np.float64(0.408)`. -/
def kappa_const : ℝ := 408 / 1000

/-- Law-of-the-wall integration constant `self.aval = np.float64(0.476)`. -/
def aval_const : ℝ := 476 / 1000

/-- Trapezoid wetted area `AW = d * (wb + d * tan(theta))` as computed in
`update_trapezoid_Rh` and `initialize_computed_vars`. -/
def A_wet_cell (width angle d : ℝ) : ℝ :=
  d * (width + d * Real.tan angle)

/-- Trapezoid wetted perimeter `P_wet = wb + 2 * d / cos(theta)`. -/
def P_wet_cell (width angle d : ℝ) : ℝ :=
  width + 2 * d / Real.cos angle

/-- The trapezoid volume forward map `vol = A_wet(d) * ds` that
`update_channel_depth` inverts. -/
def forward_vol (width angle d ds : ℝ) : ℝ :=
  A_wet_cell width angle d * ds

/-- Per-cell depth inversion of `update_channel_depth` (both the scalar-angle
and the grid-angle paths compute exactly this on each cell): the linear branch
for `angle == 0`, otherwise `denom = 2*tan(angle)`,
`arg = 2*denom*vol/ds + width**2`, `d = (sqrt(arg) - width) / denom`. -/
def depth_from_vol_cell (vol width angle ds : ℝ) : ℝ :=
  if angle = 0 then vol / (width * ds)
  else
    (Real.sqrt (2 * (2 * Real.tan angle) * vol / ds + width ^ 2) - width) /
      (2 * Real.tan angle)

end Topoflow

namespace Topoflow

/-! ### The channel component state and its update cascade

The flattened raster has `n` cells.  A BMI input flux is either a scalar or a
grid (`numpy` broadcasting); `SOG.eval` is the broadcast read. -/

/-- Scalar-or-grid quantity, as delivered through BMI references. -/
inductive SOG (n : ℕ) where
  | scal (x : ℝ)
  | grid (g : Fin n → ℝ)

/-- Broadcast read of a scalar-or-grid value at a cell. -/
def SOG.eval {n : ℕ} : SOG n → Fin n → ℝ
  | .scal x, _ => x
  | .grid f, c => f c

/-- Static configuration of the channel component: the D8 service
(`parent c = none` marks the noflow/sink cells of `d8.noflow_IDs`; the eight
`p1..p8 / w1..w8` index groups of the source are the fibers of `parent`),
per-cell geometry read at initialization, the timestep, and the friction
closure flags.  `nval` / `z0val` cover both the scalar and grid roughness
cases (the source's `nval.size > 1` branch computes the same per-cell
value). -/
structure Config (n : ℕ) where
  parent : Fin n → Option (Fin n)
  da : Fin n → ℝ
  dt : ℝ
  width : Fin n → ℝ
  angle : Fin n → ℝ
  ds : Fin n → ℝ
  nval : Fin n → ℝ
  z0val : Fin n → ℝ
  MANNING : Bool
  LAW_OF_WALL : Bool

/-- Dynamic state of the channel component with the flood option disabled.
In that configuration `initialize_computed_vars` makes `self.Q` and `self.Qc`
two names for one array and `self.vol` and `self.vol_chan` two names for one
array ("2 names for same thing"); the fields `Q` and `vol` here model those
single shared arrays (the aliasing itself is verified on the reference model
`PyState` below).  `dIsPos` is the `self.d_is_pos` mask cached by
`update_channel_depth`. -/
structure State (n : ℕ) where
  vol : Fin n → ℝ
  d : Fin n → ℝ
  u : Fin n → ℝ
  A_wet : Fin n → ℝ
  P_wet : Fin n → ℝ
  Rh : Fin n → ℝ
  f : Fin n → ℝ
  froude : Fin n → ℝ
  Q : Fin n → ℝ
  R : Fin n → ℝ
  ET : SOG n
  P : SOG n
  SM : SOG n
  GW : SOG n
  IN : SOG n
  MR : SOG n
  dIsPos : Fin n → Prop
  vol_edge : ℝ
  vol_R : ℝ

variable {n : ℕ}

/-- `update_R`: `w = (vol < ET*dt)`; for grid `ET` (same `ndim` as `vol`) the
suppression `ET[w] = 0.0` is written in place into the shared `self.ET`
array; for scalar `ET` the *local* name is rebound to `0.0` (for every cell,
whatever `w` says) and `self.ET` is left untouched.  Then
`R = (P + SM + GW + MR) - (ET + IN)`. -/
def update_R (cfg : Config n) (s : State n) : State n :=
  let ETused : Fin n → ℝ :=
    match s.ET with
    | .grid e => fun c => if s.vol c < e c * cfg.dt then 0 else e c
    | .scal _ => fun _ => 0
  let ETnew : SOG n :=
    match s.ET with
    | .grid e => .grid (fun c => if s.vol c < e c * cfg.dt then 0 else e c)
    | .scal x => .scal x
  { s with
    ET := ETnew
    R := fun c =>
      (s.P.eval c + s.SM.eval c + s.GW.eval c + s.MR.eval c) -
        (ETused c + s.IN.eval c) }

/-- `update_R_integral`: `vol_R += sum(R * da * dt)`. -/
def update_R_integral (cfg : Config n) (s : State n) : State n :=
  { s with vol_R := s.vol_R + ∑ c, s.R c * cfg.da c * cfg.dt }

/-- `update_channel_discharge`: `Qc[:] = u * A_wet` (in place; with flooding
disabled `Q` is that same array). -/
def update_channel_discharge (s : State n) : State n :=
  { s with Q := fun c => s.u c * s.A_wet c }

/-- `update_diversions`: the body is disabled by an unconditional early
`return`. -/
def update_diversions (s : State n) : State n := s

/-- Total inflow scattered into cell `p` by the eight
`vol[d8.p_k] += dt * Q[d8.w_k]` statements of `update_flow_volume`: within
one flow-code group the parent indices are distinct, so the groups together
add `Q c` to `vol (parent c)` for every cell `c` with a defined flow
direction. -/
def inflow (cfg : Config n) (Q : Fin n → ℝ) (p : Fin n) : ℝ :=
  ∑ c ∈ Finset.univ.filter (fun c => cfg.parent c = some p), Q c

/-- `update_flow_volume` with the default `ATTENUATE = False` (per
`set_missing_cfg_options`): `vol += R*da*dt`, the eight scatter-adds of the
neighbor inflow, `vol -= Q*dt` for every cell, then the in-place clamp
`np.maximum(vol, 0.0, vol)`. -/
def update_flow_volume (cfg : Config n) (s : State n) : State n :=
  { s with
    vol := fun c =>
      max (s.vol c + s.R c * cfg.da c * cfg.dt +
        cfg.dt * inflow cfg s.Q c - s.Q c * cfg.dt) 0 }

/-- `update_channel_depth`: per-cell depth inversion of the stored channel
volume (`self.vol_chan`, which with flooding disabled is the `vol` array),
the clamp `np.maximum(d, 0.0, self.d)`, and the cached masks
`d_is_pos = (d > 0)`, `d_is_zero = invert(d_is_pos)`. -/
def update_channel_depth (cfg : Config n) (s : State n) : State n :=
  let dnew : Fin n → ℝ := fun c =>
    max (depth_from_vol_cell (s.vol c) (cfg.width c) (cfg.angle c) (cfg.ds c)) 0
  { s with d := dnew, dIsPos := fun c => 0 < dnew c }

/-- `update_trapezoid_Rh`: `A_wet = d*(wb + d*tan(angle))`,
`P_wet = wb + 2*d/cos(angle)`, then `P_wet[noflow_IDs] = 1` *before* the
division `Rh = A_wet / P_wet`, then `Rh[noflow_IDs] = 0`.  The stored
`self.A_wet` is the computed area at every cell — it is not zeroed at the
noflow cells. -/
def update_trapezoid_Rh (cfg : Config n) (s : State n) : State n :=
  let A : Fin n → ℝ := fun c => A_wet_cell (cfg.width c) (cfg.angle c) (s.d c)
  let Pw : Fin n → ℝ := fun c =>
    if cfg.parent c = none then 1 else P_wet_cell (cfg.width c) (cfg.angle c) (s.d c)
  let Rh : Fin n → ℝ := fun c => if cfg.parent c = none then 0 else A c / Pw c
  { s with A_wet := A, P_wet := Pw, Rh := Rh }

/-- `update_friction_factor`: with `wg = d_is_pos`, `wb = d_is_zero`, the
Manning closure writes `f[wg] = g * n^2 / d[wg]^(1/3)` and `f[wb] = 0`; the
law-of-the-wall closure writes
`f[wg] = (kappa / log(max(smoothness, 1.1)))^2` with
`smoothness = (aval/z0val)*d`, and `f[wb] = 0`.  Each closure runs only under
its flag, Manning first. -/
def update_friction_factor (cfg : Config n) (s : State n) : State n :=
  let f1 : Fin n → ℝ :=
    if cfg.MANNING then
      fun c => if s.dIsPos c then
        g_const * (cfg.nval c ^ 2 / s.d c ^ ((1 : ℝ) / 3)) else 0
    else s.f
  let f2 : Fin n → ℝ :=
    if cfg.LAW_OF_WALL then
      fun c => if s.dIsPos c then
        (kappa_const / Real.log (max ((aval_const / cfg.z0val c) * s.d c) (11 / 10))) ^ 2
      else 0
    else f1
  { s with f := f2 }

/-- `update_velocity` of the base component: inactive (a warning print);
velocity is updated by the scheme-specific override. -/
def update_velocity (s : State n) : State n := s

/-- `update_velocity_on_edges`: `u[noflow_IDs] = 0`. -/
def update_velocity_on_edges (cfg : Config n) (s : State n) : State n :=
  { s with u := fun c => if cfg.parent c = none then 0 else s.u c }

/-- `update_froude_number`: `froude[wg] = u[wg]/sqrt(g*d[wg])`,
`froude[wb] = 0`, with the cached masks. -/
def update_froude_number (s : State n) : State n :=
  { s with froude := fun c =>
      if s.dIsPos c then s.u c / Real.sqrt (g_const * s.d c) else 0 }

/-- `update_edge_values`: `vol_edge += vol[noflow_IDs].sum()`, then
`vol[noflow_IDs] = 0` and `d[noflow_IDs] = 0`. -/
def update_edge_values (cfg : Config n) (s : State n) : State n :=
  { s with
    vol_edge := s.vol_edge +
      ∑ c ∈ Finset.univ.filter (fun c => cfg.parent c = none), s.vol c
    vol := fun c => if cfg.parent c = none then 0 else s.vol c
    d := fun c => if cfg.parent c = none then 0 else s.d c }

/-- One tick of `update()` with the flood option disabled, restricted to the
state carried by `State` (the shear-stress, outlet, peak and output-file
steps touch only fields outside this model): `update_R`,
`update_R_integral`, `update_channel_discharge`, `update_diversions`,
`update_flow_volume`, `update_channel_depth`, `update_trapezoid_Rh`,
`update_friction_factor`, `update_velocity`, `update_velocity_on_edges`,
`update_froude_number`, `update_edge_values`, in source order. -/
def tick (cfg : Config n) (s : State n) : State n :=
  update_edge_values cfg <| update_froude_number <|
    update_velocity_on_edges cfg <| update_velocity <|
      update_friction_factor cfg <| update_trapezoid_Rh cfg <|
        update_channel_depth cfg <| update_flow_volume cfg <|
          update_diversions <| update_channel_discharge <|
            update_R_integral cfg <| update_R cfg s

/-- The state produced by `initialize_computed_vars` with flooding disabled,
restricted to the fields of `State`: `u`, `f`, `R`, `Rh`, `froude`, `Qc`
(= `Q`) and the mass-balance scalars are zero grids/scalars, `d = d0` (the
initial-depth input), `A_wet`/`P_wet` come from the trapezoid formulas at
`d0`, and `vol` is the initial channel volume `A_wet * ds` (= `vol_chan`). -/
def initialize_computed_vars (cfg : Config n) (d0 : Fin n → ℝ)
    (P0 SM0 GW0 ET0 IN0 MR0 : SOG n) : State n :=
  { vol := fun c => A_wet_cell (cfg.width c) (cfg.angle c) (d0 c) * cfg.ds c
    d := d0
    u := fun _ => 0
    A_wet := fun c => A_wet_cell (cfg.width c) (cfg.angle c) (d0 c)
    P_wet := fun c => P_wet_cell (cfg.width c) (cfg.angle c) (d0 c)
    Rh := fun _ => 0
    f := fun _ => 0
    froude := fun _ => 0
    Q := fun _ => 0
    R := fun _ => 0
    ET := ET0
    P := P0
    SM := SM0
    GW := GW0
    IN := IN0
    MR := MR0
    dIsPos := fun _ => False
    vol_edge := 0
    vol_R := 0 }

/-- The per-cell volume of `update_flow_volume` *before* the final
`np.maximum(vol, 0.0)` clamp, for a tick started at `s` (so `R` is the value
`update_R` computes from `s` and `Q = u * A_wet` from `s`). -/
def pre_clamp_vol (cfg : Config n) (s : State n) : Fin n → ℝ := fun c =>
  s.vol c + (update_R cfg s).R c * cfg.da c * cfg.dt +
    cfg.dt * inflow cfg (fun c' => s.u c' * s.A_wet c') c -
    (s.u c * s.A_wet c) * cfg.dt

/-- Summing the scatter-added inflows over all cells gives the total
discharge of the cells that have a downstream parent: the fibers of
`cfg.parent` over `some p` partition them. -/
lemma sum_inflow_eq (cfg : Config n) (Q : Fin n → ℝ) :
    ∑ p, inflow cfg Q p
      = (∑ c, Q c) -
        ∑ c ∈ Finset.univ.filter (fun c => cfg.parent c = none), Q c := by
  have h := Finset.sum_fiberwise (Finset.univ : Finset (Fin n)) cfg.parent Q
  rw [Fintype.sum_option] at h
  unfold inflow
  linarith [h]

/-- How a tick transforms the volume grid: the pre-clamp value, clamped,
then zeroed at the noflow cells by `update_edge_values`. -/
lemma tick_vol_eq (cfg : Config n) (s : State n) :
    (tick cfg s).vol = fun c =>
      if cfg.parent c = none then 0 else max (pre_clamp_vol cfg s c) 0 := rfl

/-- How a tick transforms `vol_edge`. -/
lemma tick_vol_edge_eq (cfg : Config n) (s : State n) :
    (tick cfg s).vol_edge = s.vol_edge +
      ∑ c ∈ Finset.univ.filter (fun c => cfg.parent c = none),
        max (pre_clamp_vol cfg s c) 0 := rfl

/-- The `R` grid a tick leaves behind is the one `update_R` computed. -/
lemma tick_R_eq (cfg : Config n) (s : State n) :
    (tick cfg s).R = (update_R cfg s).R := rfl

/-- C1 counterexample configuration: one cell, a noflow cell, unit geometry,
Manning friction. -/
def cfgC1 : Config 1 :=
  { parent := fun _ => none
    da := fun _ => 1
    dt := 1
    width := fun _ => 1
    angle := fun _ => 0
    ds := fun _ => 1
    nval := fun _ => 3 / 100
    z0val := fun _ => 1 / 100
    MANNING := true
    LAW_OF_WALL := false }

/-- C1 counterexample initial state: produced by initialization from initial
depth `d0 = 1` (so `vol = A_wet * ds = 1 ≥ 0`, all grids finite, `u = 0`),
with a strong net loss `IN = 10 m/s` and all other input fluxes zero. -/
def sC1 : State 1 :=
  initialize_computed_vars cfgC1 (fun _ => 1)
    (.scal 0) (.scal 0) (.scal 0) (.scal 0) (.scal 10) (.scal 0)

/-- C1 counterexample: from the initialization state with `vol = 1` and
`R = -10` the clamp `np.maximum(vol, 0.0, vol)` creates mass, so the
single-tick balance fails: the stored volume changes by `-1` while
`sum(R*area*dt) - vol_edge_delta = -10`; the imbalance is `9`, far beyond
floating-point tolerance. -/
theorem mass_balance_tick_cex :
    ((∑ c, (tick cfgC1 sC1).vol c) - ∑ c, sC1.vol c) = -1 ∧
    ((∑ c, (tick cfgC1 sC1).R c * cfgC1.da c * cfgC1.dt) -
      ((tick cfgC1 sC1).vol_edge - sC1.vol_edge)) = -10 ∧
    ¬ |((∑ c, (tick cfgC1 sC1).vol c) - ∑ c, sC1.vol c) -
        ((∑ c, (tick cfgC1 sC1).R c * cfgC1.da c * cfgC1.dt) -
          ((tick cfgC1 sC1).vol_edge - sC1.vol_edge))| ≤ 1 / 1000 := by
  have hv : (∑ c, (tick cfgC1 sC1).vol c) - ∑ c, sC1.vol c = -1 := by
    rw [tick_vol_eq]
    simp [sC1, cfgC1, initialize_computed_vars, A_wet_cell, Real.tan_zero]
  have hr : ((∑ c, (tick cfgC1 sC1).R c * cfgC1.da c * cfgC1.dt) -
      ((tick cfgC1 sC1).vol_edge - sC1.vol_edge)) = -10 := by
    rw [tick_R_eq, tick_vol_edge_eq]
    have hpre : pre_clamp_vol cfgC1 sC1 0 = -9 := by
      simp [pre_clamp_vol, update_R, inflow, sC1, cfgC1, initialize_computed_vars,
        A_wet_cell, SOG.eval, Real.tan_zero]
      norm_num
    have hR0 : (update_R cfgC1 sC1).R 0 = -10 := by
      norm_num [update_R, sC1, cfgC1, initialize_computed_vars, SOG.eval]
    have hfil : Finset.univ.filter (fun c : Fin 1 => cfgC1.parent c = none) =
        Finset.univ := by
      simp [cfgC1]
    rw [hfil]
    simp only [Fin.sum_univ_one, hR0, hpre]
    rw [max_eq_right (by norm_num : (-9:ℝ) ≤ 0)]
    simp [cfgC1, sC1, initialize_computed_vars]
  refine ⟨hv, hr, ?_⟩
  rw [hv, hr]
  norm_num

/-- C1 amended: for a single tick with flooding disabled, if discharge
vanishes at the noflow cells (true of the initialization state, where
`u = 0` everywhere, and preserved by `update_velocity_on_edges` afterwards)
and the final `np.maximum(vol, 0.0)` clamp does not engage (every pre-clamp
volume is nonnegative), then the balance is exact:
`sum(vol_after) - sum(vol_before) = sum(R*area*dt) - vol_edge_delta`. -/
theorem mass_balance_tick (cfg : Config n) (s : State n)
    (hQ : ∀ c, cfg.parent c = none → s.u c * s.A_wet c = 0)
    (hcl : ∀ c, 0 ≤ pre_clamp_vol cfg s c) :
    ((∑ c, (tick cfg s).vol c) - ∑ c, s.vol c)
      = (∑ c, (tick cfg s).R c * cfg.da c * cfg.dt) -
        ((tick cfg s).vol_edge - s.vol_edge) := by
  rw [tick_vol_eq, tick_R_eq, tick_vol_edge_eq]
  have hmax : ∀ c, max (pre_clamp_vol cfg s c) 0 = pre_clamp_vol cfg s c :=
    fun c => max_eq_left (hcl c)
  -- the total pre-clamp volume: routing moves mass, it does not create it
  have hQ0 : ∑ c ∈ Finset.univ.filter (fun c => cfg.parent c = none),
      s.u c * s.A_wet c = 0 :=
    Finset.sum_eq_zero fun c hc => hQ c (Finset.mem_filter.mp hc).2
  have hpre : ∑ c, pre_clamp_vol cfg s c
      = (∑ c, s.vol c) + ∑ c, (update_R cfg s).R c * cfg.da c * cfg.dt := by
    unfold pre_clamp_vol
    rw [Finset.sum_sub_distrib, Finset.sum_add_distrib, Finset.sum_add_distrib,
      ← Finset.mul_sum, sum_inflow_eq, hQ0]
    have hout : ∑ x, s.u x * s.A_wet x * cfg.dt
        = (∑ x, s.u x * s.A_wet x) * cfg.dt := by rw [Finset.sum_mul]
    rw [hout]
    ring
  -- split the post-tick volume sum over noflow vs flowing cells
  have hsplit : ∑ c, (if cfg.parent c = none then (0:ℝ)
        else max (pre_clamp_vol cfg s c) 0)
      = (∑ c, max (pre_clamp_vol cfg s c) 0) -
        ∑ c ∈ Finset.univ.filter (fun c => cfg.parent c = none),
          max (pre_clamp_vol cfg s c) 0 := by
    rw [Finset.sum_ite, Finset.sum_const, smul_zero, zero_add]
    have h := Finset.sum_filter_add_sum_filter_not Finset.univ
      (fun c => cfg.parent c = none) (fun c => max (pre_clamp_vol cfg s c) 0)
    linarith [h]
  simp only [hmax] at hsplit ⊢
  rw [hsplit]
  linarith [hpre]

/-- C1 witness configuration: two cells, cell 0 flows into the noflow
cell 1. -/
def cfgC1w : Config 2 :=
  { parent := fun c => if c = 0 then some 1 else none
    da := fun _ => 1
    dt := 1
    width := fun _ => 1
    angle := fun _ => 0
    ds := fun _ => 1
    nval := fun _ => 3 / 100
    z0val := fun _ => 1 / 100
    MANNING := true
    LAW_OF_WALL := false }

/-- C1 witness state: `vol = 10` everywhere, `u = (1, 0)`, `A_wet = 2`,
net input rate `P = 1`; discharge is zero at the noflow cell and no cell's
pre-clamp volume goes negative. -/
def sC1w : State 2 :=
  { initialize_computed_vars cfgC1w (fun _ => 0)
      (.scal 1) (.scal 0) (.scal 0) (.scal 0) (.scal 0) (.scal 0) with
    vol := fun _ => 10
    u := fun c => if c = 0 then 1 else 0
    A_wet := fun _ => 2 }

/-- C1 witness: the amended mass balance applied to the concrete two-cell
state, with both hypotheses checked by evaluation. -/
theorem mass_balance_tick_witness :
    ((∑ c, (tick cfgC1w sC1w).vol c) - ∑ c, sC1w.vol c)
      = (∑ c, (tick cfgC1w sC1w).R c * cfgC1w.da c * cfgC1w.dt) -
        ((tick cfgC1w sC1w).vol_edge - sC1w.vol_edge) := by
  refine mass_balance_tick cfgC1w sC1w ?_ ?_
  · intro c hc
    fin_cases c
    · simp [cfgC1w] at hc
    · simp [sC1w]
  · intro c
    have hin : ∀ c', (fun c' => sC1w.u c' * sC1w.A_wet c') c' =
        (if c' = 0 then (2:ℝ) else 0) := by
      intro c'
      fin_cases c' <;> simp [sC1w, initialize_computed_vars]
    fin_cases c <;>
      · simp [pre_clamp_vol, update_R, inflow, Finset.sum_filter, sC1w, cfgC1w,
          initialize_computed_vars, SOG.eval, Fin.sum_univ_two]
        norm_num

/-- C8: `update_edge_values` zeroes the stored volume and depth at every
noflow (sink/edge) cell and adds exactly the zeroed total to the running
`vol_edge`. -/
theorem edge_zeroing (cfg : Config n) (s : State n) (c : Fin n)
    (hc : cfg.parent c = none) :
    (update_edge_values cfg s).vol c = 0 ∧
    (update_edge_values cfg s).d c = 0 ∧
    (update_edge_values cfg s).vol_edge = s.vol_edge +
      ∑ c' ∈ Finset.univ.filter (fun c' => cfg.parent c' = none), s.vol c' := by
  refine ⟨?_, ?_, rfl⟩ <;> simp [update_edge_values, hc]

/-- C8 witness configuration: a single sink cell. -/
def cfgC8 : Config 1 :=
  { parent := fun _ => none
    da := fun _ => 1
    dt := 1
    width := fun _ => 2
    angle := fun _ => 0
    ds := fun _ => 50
    nval := fun _ => 3 / 100
    z0val := fun _ => 1 / 100
    MANNING := true
    LAW_OF_WALL := false }

/-- C8 witness state: the sink cell holds `vol = 12 m³` after routing, with
`vol_edge = 5` accumulated so far. -/
def sC8 : State 1 :=
  { initialize_computed_vars cfgC8 (fun _ => 0)
      (.scal 0) (.scal 0) (.scal 0) (.scal 0) (.scal 0) (.scal 0) with
    vol := fun _ => 12
    d := fun _ => 3 / 10
    vol_edge := 5 }

/-- C8 witness: the sink cell that accumulated `12 m³` ends edge handling
with `vol = 0`, `d = 0`, and `vol_edge` grown by exactly `12` (from `5` to
`17`). -/
theorem edge_zeroing_witness :
    (update_edge_values cfgC8 sC8).vol 0 = 0 ∧
    (update_edge_values cfgC8 sC8).d 0 = 0 ∧
    (update_edge_values cfgC8 sC8).vol_edge = 17 := by
  have h := edge_zeroing cfgC8 sC8 0 rfl
  refine ⟨h.1, h.2.1, ?_⟩
  rw [h.2.2]
  simp [sC8, cfgC8]
  norm_num

/-- C2 counterexample input check: with `width = 0`, `angle = 0`, `d = 1`,
`ds = 1` the forward volume is `0` and the linear inversion branch divides
`0` by `width * ds = 0`; the claimed recovery of `d = 1` fails.  (In float64
the division yields NaN; in this exact model division by zero yields `0`;
either way the result is not within `1e-9` of `1`.) -/
theorem depth_inversion_zero_width_cex :
    depth_from_vol_cell (forward_vol 0 0 1 1) 0 0 1 = 0 ∧
    ¬ |depth_from_vol_cell (forward_vol 0 0 1 1) 0 0 1 - 1| ≤ 1 / 1000000000 := by
  have h : depth_from_vol_cell (forward_vol 0 0 1 1) 0 0 1 = 0 := by
    simp [depth_from_vol_cell, forward_vol, A_wet_cell]
  refine ⟨h, ?_⟩
  rw [h]
  norm_num

/-- C2 amended: excluding the degenerate `width = 0 ∧ angle = 0` corner, the
depth-inversion step (including its final `np.maximum(d, 0.0)` clamp) is an
exact right inverse of the trapezoid forward map on
`width ≥ 0, angle ∈ [0, π/2), d ≥ 0, ds > 0`. -/
theorem depth_inversion_right_inverse (width angle d ds : ℝ)
    (hw : 0 ≤ width) (ha0 : 0 ≤ angle) (ha1 : angle < Real.pi / 2)
    (hd : 0 ≤ d) (hds : 0 < ds) (hnd : 0 < width ∨ 0 < angle) :
    max (depth_from_vol_cell (forward_vol width angle d ds) width angle ds) 0 = d := by
  rcases eq_or_lt_of_le ha0 with hz | hpos
  · -- angle = 0: linear branch, and the nondegeneracy gives width > 0
    subst hz
    have hw' : 0 < width := by
      rcases hnd with h | h
      · exact h
      · exact absurd h (lt_irrefl 0)
    have hinv : depth_from_vol_cell (forward_vol width 0 d ds) width 0 ds = d := by
      rw [depth_from_vol_cell, if_pos rfl, forward_vol, A_wet_cell, Real.tan_zero]
      field_simp
      ring
    rw [hinv]
    exact max_eq_left hd
  · -- angle > 0: quadratic branch
    have htan : 0 < Real.tan angle := Real.tan_pos_of_pos_of_lt_pi_div_two hpos ha1
    have hane : angle ≠ 0 := ne_of_gt hpos
    have hkey : 2 * (2 * Real.tan angle) * forward_vol width angle d ds / ds + width ^ 2
        = (width + 2 * d * Real.tan angle) ^ 2 := by
      rw [forward_vol, A_wet_cell]
      field_simp
      ring
    have hnn : 0 ≤ width + 2 * d * Real.tan angle := by positivity
    have h2t : 2 * Real.tan angle ≠ 0 := by positivity
    have hinv : depth_from_vol_cell (forward_vol width angle d ds) width angle ds = d := by
      rw [depth_from_vol_cell, if_neg hane, hkey, Real.sqrt_sq hnn,
        add_sub_cancel_left]
      field_simp
      ring
    rw [hinv]
    exact max_eq_left hd

/-- C2 witness: the amended theorem applied at
`width = 2, angle = 0, d = 3, ds = 5`. -/
theorem depth_inversion_right_inverse_witness :
    max (depth_from_vol_cell (forward_vol 2 0 3 5) 2 0 5) 0 = 3 :=
  depth_inversion_right_inverse 2 0 3 5 (by norm_num) le_rfl
    Real.pi_div_two_pos (by norm_num) (by norm_num) (Or.inl (by norm_num))

/-- A count of matches is nonzero exactly when some element matches. -/
lemma countP_ne_zero_iff_any (p : FVal → Bool) (l : List FVal) :
    l.countP p ≠ 0 ↔ l.any p = true := by
  induction l with
  | nil => simp
  | cons a t ih =>
    by_cases h : p a = true
    · simp [List.countP_cons, h]
    · simp [List.countP_cons, h, ih]

/-- C3 counterexample: a depth grid whose only entry is NaN (no negatives,
no infinities) with a clean velocity grid does *not* raise — the active
variant of `check_flow_depth` returns OK whenever `nneg == 0 and ninf == 0`
("Option to allow NaN but not Inf"), so the claimed "negative, NaN, or
infinite ⇒ abort" equivalence fails for NaN depths. -/
theorem stability_check_nan_depth_cex :
    stability_check_raises [FVal.nan] [FVal.fin 0] = false ∧
    [FVal.nan].any FVal.isNan = true := by decide

/-- C3 amended: the stability guard raises its terminating `RuntimeError`
iff the depth grid holds a negative or infinite entry, or the velocity grid
holds a negative, NaN or infinite entry (NaN-only depths are tolerated);
and since the raise propagates out of `update()` before any status
assignment, the status never becomes `failed` through this path — it is
either left unchanged (raise) or set to `updated` (all checks pass). -/
theorem stability_check_characterization (d u : List FVal) (s : CompStatus)
    (hs : s ≠ CompStatus.failed) :
    (stability_check_raises d u = true ↔
      (d.any FVal.isNeg = true ∨ d.any FVal.isInf = true ∨
        u.any FVal.isNeg = true ∨ u.any FVal.isNan = true ∨
        u.any FVal.isInf = true)) ∧
    status_after_stability_check d u s ≠ CompStatus.failed := by
  have hd : check_flow_depth_raises d = true ↔
      (d.any FVal.isNeg = true ∨ d.any FVal.isInf = true) := by
    simp only [check_flow_depth_raises, ← countP_ne_zero_iff_any,
      Bool.not_eq_true', Bool.and_eq_false_iff, beq_eq_false_iff_ne]
  have hu : check_flow_velocity_raises u = true ↔
      (u.any FVal.isNeg = true ∨ u.any FVal.isNan = true ∨
        u.any FVal.isInf = true) := by
    simp only [check_flow_velocity_raises, ← countP_ne_zero_iff_any,
      Bool.not_eq_true', Bool.and_eq_false_iff, beq_eq_false_iff_ne]
    tauto
  constructor
  · rw [stability_check_raises, Bool.or_eq_true, hd, hu]
    tauto
  · unfold status_after_stability_check
    by_cases h : stability_check_raises d u = true <;> simp [h, hs]

/-- C3 witness: a clean depth and velocity grid does not raise and the
status moves from `initialized` to `updated`, never to `failed`. -/
theorem stability_check_characterization_witness :
    ((stability_check_raises [FVal.fin 1] [FVal.fin 2] = true ↔
      ([FVal.fin 1].any FVal.isNeg = true ∨ [FVal.fin 1].any FVal.isInf = true ∨
        [FVal.fin 2].any FVal.isNeg = true ∨ [FVal.fin 2].any FVal.isNan = true ∨
        [FVal.fin 2].any FVal.isInf = true)) ∧
      status_after_stability_check [FVal.fin 1] [FVal.fin 2]
        CompStatus.initialized ≠ CompStatus.failed) :=
  stability_check_characterization [FVal.fin 1] [FVal.fin 2]
    CompStatus.initialized (by decide)

/-- C4: on every cell the flood partition computes
`vol_flood = max(vol - vol_bankfull, 0)` and
`vol_chan = min(vol, vol_bankfull)`; the two always reassemble the total
volume; and the flood depth uses the rectangle-over-trapezoid formula with
the default `width_ratio = 5`. -/
theorem flood_partition (vol B w ds vf : ℚ) (_hv : 0 ≤ vol) :
    update_channel_volume_cell vol B = min vol B ∧
    update_flood_volume_cell vol B = max (vol - B) 0 ∧
    update_channel_volume_cell vol B + update_flood_volume_cell vol B = vol ∧
    update_flood_depth_cell vf width_ratio_default w ds
      = max (vf / (5 * w * ds)) 0 := by
  refine ⟨rfl, rfl, ?_, rfl⟩
  rcases le_total vol B with h | h
  · rw [update_channel_volume_cell, update_flood_volume_cell, min_eq_left h,
      max_eq_right (by linarith), add_zero]
  · rw [update_channel_volume_cell, update_flood_volume_cell, min_eq_right h,
      max_eq_left (by linarith)]
    ring

/-- C4 witness: the spec scenario `vol_bankfull = 100, vol = 130` gives
`vol_chan = 100, vol_flood = 30`, and with
`width_ratio = 5, width = 2, ds = 50` the flood depth is
`30 / (5*2*50) = 0.06 m`. -/
theorem flood_partition_witness :
    (update_channel_volume_cell 130 100 = min 130 100 ∧
      update_flood_volume_cell 130 100 = max (130 - 100) 0 ∧
      update_channel_volume_cell 130 100 + update_flood_volume_cell 130 100 = 130 ∧
      update_flood_depth_cell 30 width_ratio_default 2 50
        = max (30 / (5 * 2 * 50)) 0) ∧
    update_channel_volume_cell 130 100 = 100 ∧
    update_flood_volume_cell 130 100 = 30 ∧
    update_flood_depth_cell 30 width_ratio_default 2 50 = 3 / 50 := by
  refine ⟨flood_partition 130 100 2 50 30 (by norm_num), ?_, ?_, ?_⟩
  · rw [update_channel_volume_cell, min_eq_right (by norm_num : (100:ℚ) ≤ 130)]
  · rw [update_flood_volume_cell,
      max_eq_left (by norm_num : (0:ℚ) ≤ 130 - 100)]
    norm_num
  · rw [update_flood_depth_cell, width_ratio_default,
      max_eq_left (by norm_num : (0:ℚ) ≤ 30 / (5 * 2 * 50))]
    norm_num

/-- Modelled from the spec claim C5: `ET` suppressed to zero exactly in the
cells with `vol < ET*dt` and left unchanged elsewhere, for every combination
of scalar and grid inputs. -/
def spec_R_claim (cfg : Config n) (s : State n) : Fin n → ℝ := fun c =>
  (s.P.eval c + s.SM.eval c + s.GW.eval c + s.MR.eval c) -
    ((if s.vol c < s.ET.eval c * cfg.dt then 0 else s.ET.eval c) + s.IN.eval c)

/-- C5 counterexample configuration: a single cell with `dt = 1`. -/
def cfgC5 : Config 1 :=
  { parent := fun _ => none
    da := fun _ => 1
    dt := 1
    width := fun _ => 1
    angle := fun _ => 0
    ds := fun _ => 1
    nval := fun _ => 3 / 100
    z0val := fun _ => 1 / 100
    MANNING := true
    LAW_OF_WALL := false }

/-- C5 counterexample state: scalar `ET = 1`, plenty of stored water
(`vol = 10 ≥ ET*dt = 1`), all other fluxes zero. -/
def sC5 : State 1 :=
  { initialize_computed_vars cfgC5 (fun _ => 0)
      (.scal 0) (.scal 0) (.scal 0) (.scal 1) (.scal 0) (.scal 0) with
    vol := fun _ => 10 }

/-- C5 counterexample: with scalar `ET` the code rebinds the local name to
`0.0` unconditionally — even though `vol ≥ ET*dt` everywhere — so the
computed `R` is `0`, while the claimed per-cell suppression rule would leave
`ET` untouched and give `R = -1`. -/
theorem update_R_scalar_ET_cex :
    (update_R cfgC5 sC5).R 0 = 0 ∧ spec_R_claim cfgC5 sC5 0 = -1 ∧
    (update_R cfgC5 sC5).R 0 ≠ spec_R_claim cfgC5 sC5 0 := by
  refine ⟨?_, ?_, ?_⟩ <;>
    norm_num [update_R, spec_R_claim, SOG.eval, sC5, cfgC5,
      initialize_computed_vars]

/-- C5 amended: when `ET` is a grid (same `ndim` as `vol`) the aggregation
computes `R = (P+SM+GW+MR) - (ET+IN)` with `ET` suppressed to zero exactly
in the cells where `vol < ET*dt` and left unchanged elsewhere; when `ET` is
a scalar it is replaced by zero wholesale, in every cell, regardless of the
stored volumes. -/
theorem update_R_formula (cfg : Config n) (s : State n) (e : Fin n → ℝ)
    (x : ℝ) (c : Fin n) :
    (update_R cfg { s with ET := SOG.grid e }).R c
      = (s.P.eval c + s.SM.eval c + s.GW.eval c + s.MR.eval c) -
          ((if s.vol c < e c * cfg.dt then 0 else e c) + s.IN.eval c) ∧
    (update_R cfg { s with ET := SOG.scal x }).R c
      = (s.P.eval c + s.SM.eval c + s.GW.eval c + s.MR.eval c) -
          (0 + s.IN.eval c) :=
  ⟨rfl, rfl⟩

/-- C6 counterexample/witness configuration: a single noflow cell with
`width = 2`, `angle = 0`. -/
def cfgC6 : Config 1 :=
  { parent := fun _ => none
    da := fun _ => 1
    dt := 1
    width := fun _ => 2
    angle := fun _ => 0
    ds := fun _ => 1
    nval := fun _ => 3 / 100
    z0val := fun _ => 1 / 100
    MANNING := true
    LAW_OF_WALL := false }

/-- C6 state: depth `d = 1` at the noflow cell. -/
def sC6 : State 1 :=
  { initialize_computed_vars cfgC6 (fun _ => 0)
      (.scal 0) (.scal 0) (.scal 0) (.scal 0) (.scal 0) (.scal 0) with
    d := fun _ => 1 }

/-- C6 counterexample: after `update_trapezoid_Rh` the noflow cell keeps the
trapezoid wetted area `A_wet = d*(width + d*tan(angle)) = 2` — the source
forces only `Rh` (and `P_wet`, to `1`) at `noflow_IDs`, never `A_wet`, so the
claim that both `A_wet` and `Rh` are zeroed there is false. -/
theorem trapezoid_Rh_noflow_A_wet_cex :
    (update_trapezoid_Rh cfgC6 sC6).A_wet 0 = 2 ∧
    (update_trapezoid_Rh cfgC6 sC6).A_wet 0 ≠ 0 := by
  constructor <;>
    norm_num [update_trapezoid_Rh, A_wet_cell, Real.tan_zero, sC6, cfgC6,
      initialize_computed_vars]

/-- C6 amended: at noflow cells `P_wet` is forced to `1` before the division
(so `Rh = A_wet / P_wet` never divides by zero there) and `Rh` is then forced
to `0`, while `A_wet` keeps its trapezoid value everywhere; at all other
cells `A_wet = d*(width + d*tan(angle))`, `P_wet = width + 2d/cos(angle)`
and `Rh = A_wet / P_wet`. -/
theorem trapezoid_Rh_values (cfg : Config n) (s : State n) (c : Fin n) :
    (cfg.parent c = none →
      (update_trapezoid_Rh cfg s).P_wet c = 1 ∧
      (update_trapezoid_Rh cfg s).Rh c = 0 ∧
      (update_trapezoid_Rh cfg s).A_wet c
        = s.d c * (cfg.width c + s.d c * Real.tan (cfg.angle c))) ∧
    (cfg.parent c ≠ none →
      (update_trapezoid_Rh cfg s).A_wet c
        = s.d c * (cfg.width c + s.d c * Real.tan (cfg.angle c)) ∧
      (update_trapezoid_Rh cfg s).P_wet c
        = cfg.width c + 2 * s.d c / Real.cos (cfg.angle c) ∧
      (update_trapezoid_Rh cfg s).Rh c
        = (update_trapezoid_Rh cfg s).A_wet c /
            (update_trapezoid_Rh cfg s).P_wet c) := by
  constructor <;> intro h <;>
    simp [update_trapezoid_Rh, A_wet_cell, P_wet_cell, h]

/-- C6 witness: the amended theorem applied at the concrete noflow cell with
`d = 1, width = 2, angle = 0`: `P_wet = 1`, `Rh = 0`, `A_wet = 2`. -/
theorem trapezoid_Rh_values_witness :
    (update_trapezoid_Rh cfgC6 sC6).P_wet 0 = 1 ∧
    (update_trapezoid_Rh cfgC6 sC6).Rh 0 = 0 ∧
    (update_trapezoid_Rh cfgC6 sC6).A_wet 0 = 2 := by
  have h := (trapezoid_Rh_values cfgC6 sC6 0).1 rfl
  refine ⟨h.1, h.2.1, ?_⟩
  rw [h.2.2]
  norm_num [sC6, cfgC6, initialize_computed_vars, Real.tan_zero]

/-- The depth → friction → velocity → Froude chain of a tick, as ordered in
`update()` (the steps between touch neither `d`, `d_is_pos`, `f` nor
`froude`). -/
def depth_friction_froude_chain (cfg : Config n) (s : State n) : State n :=
  update_froude_number (update_velocity_on_edges cfg (update_velocity
    (update_friction_factor cfg (update_channel_depth cfg s))))

/-- C7: with a friction closure configured, every cell with zero depth after
the depth-inversion step ends the friction and Froude steps with
`f = 0` and `froude = 0`; where depth is positive, Manning gives
`f = g * n^2 / d^(1/3)` and the log-law gives
`f = (kappa / log(max(1.1, (aval/z0)*d)))^2` — both through the cached
`d_is_pos` / `d_is_zero` masks of `update_channel_depth`. -/
theorem friction_froude_zero_depth (cfg : Config n) (s : State n) (c : Fin n)
    (hflag : cfg.MANNING = true ∨ cfg.LAW_OF_WALL = true) :
    ((update_channel_depth cfg s).d c = 0 →
      (depth_friction_froude_chain cfg s).f c = 0 ∧
      (depth_friction_froude_chain cfg s).froude c = 0) ∧
    (0 < (update_channel_depth cfg s).d c →
      (cfg.MANNING = true → cfg.LAW_OF_WALL = false →
        (depth_friction_froude_chain cfg s).f c
          = g_const * (cfg.nval c ^ 2 /
              (update_channel_depth cfg s).d c ^ ((1 : ℝ) / 3))) ∧
      (cfg.LAW_OF_WALL = true →
        (depth_friction_froude_chain cfg s).f c
          = (kappa_const / Real.log (max ((aval_const / cfg.z0val c) *
              (update_channel_depth cfg s).d c) (11 / 10))) ^ 2)) := by
  have hmask : ∀ h : 0 < (update_channel_depth cfg s).d c,
      (update_channel_depth cfg s).dIsPos c := fun h => h
  constructor
  · intro h
    have hnp : ¬ (update_channel_depth cfg s).dIsPos c := by
      show ¬ (0 < (update_channel_depth cfg s).d c)
      rw [h]
      exact lt_irrefl 0
    constructor
    · show (update_friction_factor cfg (update_channel_depth cfg s)).f c = 0
      by_cases hl : cfg.LAW_OF_WALL = true
      · simp only [update_friction_factor, hl]
        simp [hnp]
      · have hl' : cfg.LAW_OF_WALL = false := by simpa using hl
        by_cases hm : cfg.MANNING = true
        · simp only [update_friction_factor, hl', hm]
          simp [hnp]
        · rcases hflag with hf | hf
          · exact absurd hf hm
          · exact absurd hf hl
    · show (if (update_channel_depth cfg s).dIsPos c then _ / _ else (0:ℝ)) = 0
      exact if_neg hnp
  · intro h
    have hp : (update_channel_depth cfg s).dIsPos c := hmask h
    constructor
    · intro hm hl
      have hf : (depth_friction_froude_chain cfg s).f c
          = if (update_channel_depth cfg s).dIsPos c then
              g_const * (cfg.nval c ^ 2 /
                (update_channel_depth cfg s).d c ^ ((1 : ℝ) / 3))
            else 0 := by
        show (update_friction_factor cfg (update_channel_depth cfg s)).f c = _
        simp only [update_friction_factor, hm, hl]
        simp
      rw [hf, if_pos hp]
    · intro hl
      have hf : (depth_friction_froude_chain cfg s).f c
          = if (update_channel_depth cfg s).dIsPos c then
              (kappa_const / Real.log (max ((aval_const / cfg.z0val c) *
                (update_channel_depth cfg s).d c) (11 / 10))) ^ 2
            else 0 := by
        show (update_friction_factor cfg (update_channel_depth cfg s)).f c = _
        simp only [update_friction_factor, hl]
        simp
      rw [hf, if_pos hp]

/-- C7 witness configuration: one Manning cell. -/
def cfgC7 : Config 1 :=
  { parent := fun _ => none
    da := fun _ => 1
    dt := 1
    width := fun _ => 1
    angle := fun _ => 0
    ds := fun _ => 1
    nval := fun _ => 3 / 100
    z0val := fun _ => 1 / 100
    MANNING := true
    LAW_OF_WALL := false }

/-- C7 witness state: empty channel, so the inverted depth is `0`. -/
def sC7 : State 1 :=
  initialize_computed_vars cfgC7 (fun _ => 0)
    (.scal 0) (.scal 0) (.scal 0) (.scal 0) (.scal 0) (.scal 0)

/-- C7 witness: at the concrete empty cell the inverted depth is zero and
the friction factor and Froude number both come out zero. -/
theorem friction_froude_zero_depth_witness :
    (depth_friction_froude_chain cfgC7 sC7).f 0 = 0 ∧
    (depth_friction_froude_chain cfgC7 sC7).froude 0 = 0 :=
  (friction_froude_zero_depth cfgC7 sC7 0 (Or.inl rfl)).1 (by
    simp [update_channel_depth, depth_from_vol_cell, sC7, cfgC7,
      initialize_computed_vars, A_wet_cell, Real.tan_zero])

/-! ### Reference model: Python object identity

The aliasing facts (`self.Q is self.Qc`, `self.vol is self.vol_chan` when the
flood option is off, and the in-place mutation of the shared `self.ET` array)
are about *object identity*, so this second model keeps a heap
(`ℕ → Fin n → ℝ`) of array objects and a reference (heap index) per array
attribute.  An in-place numpy write (`x[:] = ...`, `x[ids] = ...`,
`np.maximum(..., out)`) is `Function.update` of the heap at the attribute's
reference; the reference itself is only changed by a Python rebinding, which
none of the tick's operations performs on these attributes. -/

/-- Heap-and-references state of the channel component (flood disabled,
grid `ET`): `rQ`/`rQc`/`rVol`/`rVolChan`/`rET` are the references held by the
attributes `self.Q`, `self.Qc`, `self.vol`, `self.vol_chan`, `self.ET`; the
remaining per-cell attributes are carried directly. -/
structure PyState (n : ℕ) where
  heap : ℕ → Fin n → ℝ
  rQ : ℕ
  rQc : ℕ
  rVol : ℕ
  rVolChan : ℕ
  rET : ℕ
  d : Fin n → ℝ
  u : Fin n → ℝ
  A_wet : Fin n → ℝ
  P_wet : Fin n → ℝ
  Rh : Fin n → ℝ
  f : Fin n → ℝ
  froude : Fin n → ℝ
  R : Fin n → ℝ
  dIsPos : Fin n → Prop
  vol_edge : ℝ

/-- The input fluxes other than `ET` (their scalar/grid distinction does not
matter to these claims, so they are carried as per-cell values). -/
structure Inputs (n : ℕ) where
  P : Fin n → ℝ
  SM : Fin n → ℝ
  GW : Fin n → ℝ
  IN : Fin n → ℝ
  MR : Fin n → ℝ

/-- `update_R` in the grid-`ET` configuration (`ET.ndim == vol.ndim`): the
mask `w = (vol < ET*dt)` reads `self.vol` through `rVol` and `self.ET`
through `rET`; `ET[w] = 0.0` writes through `rET` *in place*; `self.R` is
rebound to the freshly computed grid. -/
def py_update_R (cfg : Config n) (ins : Inputs n) (s : PyState n) : PyState n :=
  let vol := s.heap s.rVol
  let e := s.heap s.rET
  let e2 : Fin n → ℝ := fun c => if vol c < e c * cfg.dt then 0 else e c
  { s with
    heap := Function.update s.heap s.rET e2
    R := fun c => (ins.P c + ins.SM c + ins.GW c + ins.MR c) - (e2 c + ins.IN c) }

/-- `update_channel_discharge`: `self.Qc[:] = self.u * self.A_wet`, an
in-place write through `rQc`. -/
def py_update_channel_discharge (s : PyState n) : PyState n :=
  { s with heap := Function.update s.heap s.rQc (fun c => s.u c * s.A_wet c) }

/-- `update_diversions`: disabled by the unconditional early `return`. -/
def py_update_diversions (s : PyState n) : PyState n := s

/-- `update_flow_volume` (default `ATTENUATE = False`): reads `self.Q`
through `rQ`, reads and writes `self.vol` in place through `rVol`. -/
def py_update_flow_volume (cfg : Config n) (s : PyState n) : PyState n :=
  let Q := s.heap s.rQ
  let vol := s.heap s.rVol
  { s with
    heap := Function.update s.heap s.rVol (fun c =>
      max (vol c + s.R c * cfg.da c * cfg.dt +
        cfg.dt * inflow cfg Q c - Q c * cfg.dt) 0) }

/-- `update_channel_depth`: reads `self.vol_chan` through `rVolChan`, writes
`self.d` and the `d_is_pos` mask. -/
def py_update_channel_depth (cfg : Config n) (s : PyState n) : PyState n :=
  let vol := s.heap s.rVolChan
  let dn : Fin n → ℝ := fun c =>
    max (depth_from_vol_cell (vol c) (cfg.width c) (cfg.angle c) (cfg.ds c)) 0
  { s with d := dn, dIsPos := fun c => 0 < dn c }

/-- `update_trapezoid_Rh` on the reference model (same per-cell formulas as
the value model). -/
def py_update_trapezoid_Rh (cfg : Config n) (s : PyState n) : PyState n :=
  let A : Fin n → ℝ := fun c => A_wet_cell (cfg.width c) (cfg.angle c) (s.d c)
  let Pw : Fin n → ℝ := fun c =>
    if cfg.parent c = none then 1
    else P_wet_cell (cfg.width c) (cfg.angle c) (s.d c)
  { s with
    A_wet := A
    P_wet := Pw
    Rh := fun c => if cfg.parent c = none then 0 else A c / Pw c }

/-- `update_friction_factor` on the reference model. -/
def py_update_friction_factor (cfg : Config n) (s : PyState n) : PyState n :=
  let f1 : Fin n → ℝ :=
    if cfg.MANNING then
      fun c => if s.dIsPos c then
        g_const * (cfg.nval c ^ 2 / s.d c ^ ((1 : ℝ) / 3)) else 0
    else s.f
  { s with
    f :=
      if cfg.LAW_OF_WALL then
        fun c => if s.dIsPos c then
          (kappa_const / Real.log (max ((aval_const / cfg.z0val c) * s.d c)
            (11 / 10))) ^ 2
        else 0
      else f1 }

/-- Base `update_velocity`: inactive. -/
def py_update_velocity (s : PyState n) : PyState n := s

/-- `update_velocity_on_edges`: `u[noflow_IDs] = 0`. -/
def py_update_velocity_on_edges (cfg : Config n) (s : PyState n) : PyState n :=
  { s with u := fun c => if cfg.parent c = none then 0 else s.u c }

/-- `update_froude_number` on the reference model. -/
def py_update_froude_number (s : PyState n) : PyState n :=
  { s with froude := fun c =>
      if s.dIsPos c then s.u c / Real.sqrt (g_const * s.d c) else 0 }

/-- `update_edge_values`: reads and zeroes `self.vol` through `rVol`, zeroes
`self.d`, accumulates `vol_edge`. -/
def py_update_edge_values (cfg : Config n) (s : PyState n) : PyState n :=
  let vol := s.heap s.rVol
  { s with
    vol_edge := s.vol_edge +
      ∑ c ∈ Finset.univ.filter (fun c => cfg.parent c = none), vol c
    heap := Function.update s.heap s.rVol
      (fun c => if cfg.parent c = none then 0 else vol c)
    d := fun c => if cfg.parent c = none then 0 else s.d c }

/-- One tick of `update()` on the reference model, in source order. -/
def py_tick (cfg : Config n) (ins : Inputs n) (s : PyState n) : PyState n :=
  py_update_edge_values cfg <| py_update_froude_number <|
    py_update_velocity_on_edges cfg <| py_update_velocity <|
      py_update_friction_factor cfg <| py_update_trapezoid_Rh cfg <|
        py_update_channel_depth cfg <| py_update_flow_volume cfg <|
          py_update_diversions <| py_update_channel_discharge <|
            py_update_R cfg ins s

/-- `initialize_computed_vars` with flooding disabled, on the reference
model: `self.Qc` is a fresh zero array (slot 0), `self.vol_chan` is the
initial channel volume array (slot 1), `self.ET` is the caller-supplied grid
(slot 2); then `self.Q = self.Qc` and `self.vol = self.vol_chan` bind the
aliases ("2 names for same thing"). -/
def py_initialize_computed_vars (cfg : Config n) (d0 ET0 : Fin n → ℝ) : PyState n :=
  { heap := fun r =>
      if r = 0 then fun _ => 0
      else if r = 1 then
        fun c => A_wet_cell (cfg.width c) (cfg.angle c) (d0 c) * cfg.ds c
      else if r = 2 then ET0
      else fun _ => 0
    rQc := 0
    rQ := 0
    rVolChan := 1
    rVol := 1
    rET := 2
    d := d0
    u := fun _ => 0
    A_wet := fun c => A_wet_cell (cfg.width c) (cfg.angle c) (d0 c)
    P_wet := fun c => P_wet_cell (cfg.width c) (cfg.angle c) (d0 c)
    Rh := fun _ => 0
    f := fun _ => 0
    froude := fun _ => 0
    R := fun _ => 0
    dIsPos := fun _ => False
    vol_edge := 0 }

/-- C10: with the flood option disabled, initialization binds `self.Q` to
the very array object `self.Qc` and `self.vol` to the very array object
`self.vol_chan`; every tick's operations write these arrays only in place
and never rebind the attributes, so after any number of ticks `Q` equals
`Qc` and `vol` equals `vol_chan` cell by cell. -/
theorem discharge_volume_aliasing (cfg : Config n) (ins : Inputs n)
    (d0 ET0 : Fin n → ℝ) (k : ℕ) (c : Fin n) :
    ((py_tick cfg ins)^[k] (py_initialize_computed_vars cfg d0 ET0)).heap
        ((py_tick cfg ins)^[k] (py_initialize_computed_vars cfg d0 ET0)).rQ c
      = ((py_tick cfg ins)^[k] (py_initialize_computed_vars cfg d0 ET0)).heap
          ((py_tick cfg ins)^[k] (py_initialize_computed_vars cfg d0 ET0)).rQc c ∧
    ((py_tick cfg ins)^[k] (py_initialize_computed_vars cfg d0 ET0)).heap
        ((py_tick cfg ins)^[k] (py_initialize_computed_vars cfg d0 ET0)).rVol c
      = ((py_tick cfg ins)^[k] (py_initialize_computed_vars cfg d0 ET0)).heap
          ((py_tick cfg ins)^[k] (py_initialize_computed_vars cfg d0 ET0)).rVolChan c := by
  have href : ∀ m : ℕ,
      ((py_tick cfg ins)^[m] (py_initialize_computed_vars cfg d0 ET0)).rQ
          = ((py_tick cfg ins)^[m] (py_initialize_computed_vars cfg d0 ET0)).rQc ∧
      ((py_tick cfg ins)^[m] (py_initialize_computed_vars cfg d0 ET0)).rVol
          = ((py_tick cfg ins)^[m] (py_initialize_computed_vars cfg d0 ET0)).rVolChan := by
    intro m
    induction m with
    | zero => exact ⟨rfl, rfl⟩
    | succ m ih =>
      rw [Function.iterate_succ_apply']
      exact ih
  refine ⟨?_, ?_⟩
  · rw [(href k).1]
  · rw [(href k).2]

/-- C9: `update_R` with grid `ET` writes the suppression zeros *in place*
into the caller-supplied `ET` array: after the whole tick the heap cell that
`self.ET` (and every other component holding the same reference) points to
contains `0` exactly where `vol < ET*dt` held and the original values
elsewhere, and the reference itself is unchanged.  The two disequalities say
that `self.ET` is a different array object from `self.Qc` and `self.vol`,
as initialization guarantees. -/
theorem ET_in_place_suppression (cfg : Config n) (ins : Inputs n)
    (s : PyState n) (c : Fin n)
    (h1 : s.rET ≠ s.rQc) (h2 : s.rET ≠ s.rVol) :
    (py_tick cfg ins s).rET = s.rET ∧
    (py_tick cfg ins s).heap s.rET c
      = (if s.heap s.rVol c < s.heap s.rET c * cfg.dt then 0
         else s.heap s.rET c) := by
  refine ⟨rfl, ?_⟩
  simp only [py_tick, py_update_edge_values, py_update_froude_number,
    py_update_velocity_on_edges, py_update_velocity, py_update_friction_factor,
    py_update_trapezoid_Rh, py_update_channel_depth, py_update_flow_volume,
    py_update_diversions, py_update_channel_discharge, py_update_R]
  rw [Function.update_noteq h2, Function.update_noteq h2,
    Function.update_noteq h1, Function.update_same]

/-- C9 witness configuration. -/
def cfgC9 : Config 1 :=
  { parent := fun _ => none
    da := fun _ => 1
    dt := 1
    width := fun _ => 1
    angle := fun _ => 0
    ds := fun _ => 1
    nval := fun _ => 3 / 100
    z0val := fun _ => 1 / 100
    MANNING := true
    LAW_OF_WALL := false }

/-- C9 witness inputs: all other fluxes zero. -/
def insC9 : Inputs 1 :=
  { P := fun _ => 0
    SM := fun _ => 0
    GW := fun _ => 0
    IN := fun _ => 0
    MR := fun _ => 0 }

/-- C9 witness state: initialized with initial depth `0` and a grid
`ET = 1` shared by reference. -/
def sC9py : PyState 1 := py_initialize_computed_vars cfgC9 (fun _ => 0) (fun _ => 1)

/-- C9 witness: the in-place suppression theorem applied at the initialized
state, whose references satisfy `rET = 2 ≠ 0 = rQc` and `rET = 2 ≠ 1 = rVol`. -/
theorem ET_in_place_suppression_witness :
    (py_tick cfgC9 insC9 sC9py).rET = sC9py.rET ∧
    (py_tick cfgC9 insC9 sC9py).heap sC9py.rET 0
      = (if sC9py.heap sC9py.rVol 0 < sC9py.heap sC9py.rET 0 * cfgC9.dt then 0
         else sC9py.heap sC9py.rET 0) :=
  ET_in_place_suppression cfgC9 insC9 sC9py 0 (by decide) (by decide)

end Topoflow
